import Mathlib

/-!
Verification development for the FinRisk training pipeline
(`ml-pipeline/training_simple.py`).

The pipeline is shallowly embedded over exact rationals (`ℚ`): the random
draws that numpy produces are passed in explicitly as functions from sample
index to value, and the external TensorFlow engine (model fitting, TFLite
interpretation) is passed in as a black-box function argument, so that the
glue code of the repository itself is what the definitions capture.
-/

/-- Number of synthetic loan applications generated by the data synthesizer
(hard-coded local `n_samples = 10000` in `create_finrisk_training_data`). -/
def n_samples : Nat := 10000

/-- Min-max normalization of a raw income draw: `(raw - 20000) / (200000 - 20000)`. -/
def normalizeIncome (raw : ℚ) : ℚ := (raw - 20000) / (200000 - 20000)

/-- Min-max normalization of a raw age draw: `(raw - 18) / (65 - 18)`. -/
def normalizeAge (raw : ℚ) : ℚ := (raw - 18) / (65 - 18)

/-- One row of the feature matrix `X`: three normalized features in
column order `[income_normalized, age_normalized, app_engagement]`. -/
structure Sample where
  income_normalized : ℚ
  age_normalized : ℚ
  app_engagement : ℚ
deriving DecidableEq, Repr

/-- Continuous risk score of `create_finrisk_training_data`:
`income_normalized * 0.5 + age_normalized * 0.2 + app_engagement * 0.3 + noise`. -/
def risk_score (income_normalized age_normalized app_engagement noise : ℚ) : ℚ :=
  income_normalized * 0.5 + age_normalized * 0.2 + app_engagement * 0.3 + noise

/-- Binary label derived from a risk score: `(risk_score > 0.6).astype(float)`,
i.e. `1` when the score exceeds `0.6`, else `0`. -/
def labelOf (score : ℚ) : ℚ := if score > 0.6 then 1 else 0

/-- The feature row built from one triple of raw draws
(uniform income draw, uniform age draw, Beta-distributed engagement draw). -/
def mkSample (incomeRaw ageRaw engagement : ℚ) : Sample :=
  { income_normalized := normalizeIncome incomeRaw
    age_normalized := normalizeAge ageRaw
    app_engagement := engagement }

/-- The label built from one quadruple of raw draws, including the Gaussian
noise draw added to the risk score. -/
def mkLabel (incomeRaw ageRaw engagement noise : ℚ) : ℚ :=
  labelOf (risk_score (normalizeIncome incomeRaw) (normalizeAge ageRaw) engagement noise)

/-- Embedding of `create_finrisk_training_data` (lines 5-50): the four ambient
random streams (income, age, engagement, per-sample Gaussian noise) are passed
explicitly as index-to-value functions; the function takes no size argument and
produces the pair `(X, y)` of `n_samples = 10000` feature rows and labels. -/
def create_finrisk_training_data (incomeDraw ageDraw engDraw noiseDraw : Nat → ℚ) :
    List Sample × List ℚ :=
  ((List.range n_samples).map fun k => mkSample (incomeDraw k) (ageDraw k) (engDraw k),
   (List.range n_samples).map fun k =>
     mkLabel (incomeDraw k) (ageDraw k) (engDraw k) (noiseDraw k))

/-- Label as a function of the three already-normalized features and the noise
term, exactly as combined in lines 35-44 of the source. -/
def labelFromFeatures (income_normalized age_normalized app_engagement noise : ℚ) : ℚ :=
  labelOf (risk_score income_normalized age_normalized app_engagement noise)

/-- C1: with the Gaussian noise term fixed to 0, the binary label equals 1 iff
`0.5*income_normalized + 0.2*age_normalized + 0.3*app_engagement > 0.6`; in
particular `(0.8, 0.5, 0.9)` scores `0.77` and is labeled `1`, and
`(0.1, 0.1, 0.1)` scores `0.10` and is labeled `0`. -/
theorem label_threshold_rule_with_zero_noise :
    (∀ i a e : ℚ, labelFromFeatures i a e 0 = 1 ↔ 0.5 * i + 0.2 * a + 0.3 * e > 0.6) ∧
    risk_score 0.8 0.5 0.9 0 = 0.77 ∧ labelFromFeatures 0.8 0.5 0.9 0 = 1 ∧
    risk_score 0.1 0.1 0.1 0 = 0.10 ∧ labelFromFeatures 0.1 0.1 0.1 0 = 0 := by
  refine ⟨fun i a e => ?_, by norm_num [risk_score], ?_, by norm_num [risk_score], ?_⟩
  · constructor
    · intro h1
      unfold labelFromFeatures labelOf risk_score at h1
      by_contra hc
      push_neg at hc
      rw [if_neg (by simp only [gt_iff_lt, not_lt]; linarith)] at h1
      norm_num at h1
    · intro h1
      unfold labelFromFeatures labelOf risk_score
      rw [if_pos (by simp only [gt_iff_lt]; linarith)]
  · unfold labelFromFeatures labelOf risk_score
    norm_num
  · unfold labelFromFeatures labelOf risk_score
    norm_num

/-- Unfolding lemma for the feature matrix produced by the synthesizer. -/
theorem create_finrisk_fst (f g h k : Nat → ℚ) :
    (create_finrisk_training_data f g h k).1 =
      (List.range n_samples).map fun i => mkSample (f i) (g i) (h i) := by
  simp only [create_finrisk_training_data]

/-- Unfolding lemma for the label vector produced by the synthesizer. -/
theorem create_finrisk_snd (f g h k : Nat → ℚ) :
    (create_finrisk_training_data f g h k).2 =
      (List.range n_samples).map fun i => mkLabel (f i) (g i) (h i) (k i) := by
  simp only [create_finrisk_training_data]

/-- C2: provided the raw draws lie in the supports of their distributions
(income uniform on [20000, 200000], age uniform on [18, 65], engagement
Beta-distributed on [0, 1]), every generated feature value lies in [0, 1]
and every label lies in {0, 1} — the label unconditionally, whatever the
Gaussian noise draws are. -/
theorem generated_samples_in_domain
    (incomeDraw ageDraw engDraw noiseDraw : Nat → ℚ)
    (hInc : ∀ k, 20000 ≤ incomeDraw k ∧ incomeDraw k ≤ 200000)
    (hAge : ∀ k, 18 ≤ ageDraw k ∧ ageDraw k ≤ 65)
    (hEng : ∀ k, 0 ≤ engDraw k ∧ engDraw k ≤ 1) :
    (∀ s ∈ (create_finrisk_training_data incomeDraw ageDraw engDraw noiseDraw).1,
      (0 ≤ s.income_normalized ∧ s.income_normalized ≤ 1) ∧
      (0 ≤ s.age_normalized ∧ s.age_normalized ≤ 1) ∧
      (0 ≤ s.app_engagement ∧ s.app_engagement ≤ 1)) ∧
    (∀ y ∈ (create_finrisk_training_data incomeDraw ageDraw engDraw noiseDraw).2,
      y = 0 ∨ y = 1) := by
  constructor
  · intro s hs
    rw [create_finrisk_fst, List.mem_map] at hs
    obtain ⟨k, _, rfl⟩ := hs
    obtain ⟨hi1, hi2⟩ := hInc k
    obtain ⟨ha1, ha2⟩ := hAge k
    obtain ⟨he1, he2⟩ := hEng k
    simp only [mkSample]
    unfold normalizeIncome normalizeAge
    refine ⟨⟨?_, ?_⟩, ⟨?_, ?_⟩, he1, he2⟩
    · exact div_nonneg (by linarith) (by norm_num)
    · rw [div_le_one (by norm_num)]; linarith
    · exact div_nonneg (by linarith) (by norm_num)
    · rw [div_le_one (by norm_num)]; linarith
  · intro y hy
    rw [create_finrisk_snd, List.mem_map] at hy
    obtain ⟨k, _, rfl⟩ := hy
    unfold mkLabel labelOf
    split_ifs <;> simp

/-- Witness for C2 at concrete constant draws. -/
theorem generated_samples_in_domain_witness :
    (∀ s ∈ (create_finrisk_training_data (fun _ => 110000) (fun _ => 40)
        (fun _ => 1/2) (fun _ => 0)).1,
      (0 ≤ s.income_normalized ∧ s.income_normalized ≤ 1) ∧
      (0 ≤ s.age_normalized ∧ s.age_normalized ≤ 1) ∧
      (0 ≤ s.app_engagement ∧ s.app_engagement ≤ 1)) ∧
    (∀ y ∈ (create_finrisk_training_data (fun _ => 110000) (fun _ => 40)
        (fun _ => 1/2) (fun _ => 0)).2,
      y = 0 ∨ y = 1) :=
  generated_samples_in_domain (fun _ => 110000) (fun _ => 40) (fun _ => 1/2) (fun _ => 0)
    (fun _ => by norm_num) (fun _ => by norm_num) (fun _ => by norm_num)

/-- C3 counterexample: the data-synthesis operation accepts no requested size
and has no failure channel; every call returns exactly 10000 feature rows and
10000 labels, so `generate(0)` and `generate(-5)` are not expressible and in
particular never fail with an InputDomainError. -/
theorem synthesizer_size_is_hardcoded_cex :
    n_samples = 10000 ∧
    (create_finrisk_training_data (fun _ => 20000) (fun _ => 18)
        (fun _ => 0) (fun _ => 0)).1.length = 10000 ∧
    (create_finrisk_training_data (fun _ => 20000) (fun _ => 18)
        (fun _ => 0) (fun _ => 0)).2.length = 10000 := by
  refine ⟨rfl, ?_, ?_⟩
  · rw [create_finrisk_fst, List.length_map, List.length_range]; rfl
  · rw [create_finrisk_snd, List.length_map, List.length_range]; rfl

/-- C3 amended: the data-synthesis operation takes no size parameter and never
fails; for arbitrary random draws it returns exactly `n_samples = 10000`
feature rows and equally many labels. -/
theorem synthesizer_always_returns_10000
    (incomeDraw ageDraw engDraw noiseDraw : Nat → ℚ) :
    (create_finrisk_training_data incomeDraw ageDraw engDraw noiseDraw).1.length
      = n_samples ∧
    (create_finrisk_training_data incomeDraw ageDraw engDraw noiseDraw).2.length
      = n_samples := by
  constructor
  · rw [create_finrisk_fst, List.length_map, List.length_range]
  · rw [create_finrisk_snd, List.length_map, List.length_range]

/-- Split index `int(0.8 * len(X))` from `main` (line 235): truncation of
`0.8 * n` toward zero, which for a natural `n` is `⌊4n/5⌋`. -/
def split_idx (n : Nat) : Nat := 4 * n / 5

/-- Train/test split of `main` (lines 234-237): Python slices
`xs[:split_idx]` and `xs[split_idx:]` with no shuffling. -/
def trainTestSplit {α : Type} (xs : List α) : List α × List α :=
  (xs.take (split_idx xs.length), xs.drop (split_idx xs.length))

/-- C4: the train/test split is a deterministic prefix/suffix partition: the
training part is exactly the first `⌊0.8·n⌋` samples in original order, the
test part is exactly the rest in original order, their concatenation restores
the dataset, and every sample lands in exactly one partition (counted with
multiplicity). -/
theorem train_test_split_is_prefix_suffix {α : Type} [DecidableEq α] (xs : List α) :
    (trainTestSplit xs).1 = xs.take (split_idx xs.length) ∧
    (trainTestSplit xs).2 = xs.drop (split_idx xs.length) ∧
    (trainTestSplit xs).1.length = split_idx xs.length ∧
    (trainTestSplit xs).1 ++ (trainTestSplit xs).2 = xs ∧
    ∀ a : α, (trainTestSplit xs).1.count a + (trainTestSplit xs).2.count a
      = xs.count a := by
  refine ⟨rfl, rfl, ?_, ?_, ?_⟩
  · simp only [trainTestSplit, List.length_take]
    exact min_eq_left (by unfold split_idx; omega)
  · simp only [trainTestSplit]
    exact List.take_append_drop _ xs
  · intro a
    simp only [trainTestSplit]
    rw [← List.count_append, List.take_append_drop]

/-- The representative-sample generator `representative_data_gen`
(lines 133-137): yields 100 matrices of shape (1, 3); the ambient uniform
draws on [0, 1) are passed in explicitly, indexed by yield step and
component. -/
def representative_data_gen (u : Nat → Fin 3 → ℚ) : List (List (List ℚ)) :=
  (List.range 100).map fun k => [[u k 0, u k 1, u k 2]]

/-- C5: provided the draws lie in the uniform distribution's support [0, 1],
the calibration generator yields exactly 100 matrices, each of shape (1, 3)
(one row of three components), with every component in [0, 1]. -/
theorem representative_gen_yields_100_unit_samples (u : Nat → Fin 3 → ℚ)
    (hu : ∀ k i, 0 ≤ u k i ∧ u k i ≤ 1) :
    (representative_data_gen u).length = 100 ∧
    ∀ m ∈ representative_data_gen u, m.length = 1 ∧
      ∀ r ∈ m, r.length = 3 ∧ ∀ x ∈ r, 0 ≤ x ∧ x ≤ 1 := by
  constructor
  · simp only [representative_data_gen]
    rw [List.length_map, List.length_range]
  · intro m hm
    simp only [representative_data_gen, List.mem_map] at hm
    obtain ⟨k, _, rfl⟩ := hm
    refine ⟨rfl, ?_⟩
    intro r hr
    rw [List.mem_singleton] at hr
    subst hr
    refine ⟨rfl, ?_⟩
    intro x hx
    simp only [List.mem_cons, List.not_mem_nil, or_false] at hx
    rcases hx with rfl | rfl | rfl
    · exact hu k 0
    · exact hu k 1
    · exact hu k 2

/-- Witness for C5 at concrete constant draws. -/
theorem representative_gen_yields_100_unit_samples_witness :
    (representative_data_gen fun _ _ => 1/2).length = 100 ∧
    ∀ m ∈ representative_data_gen fun _ _ => (1:ℚ)/2, m.length = 1 ∧
      ∀ r ∈ m, r.length = 3 ∧ ∀ x ∈ r, 0 ≤ x ∧ x ≤ 1 :=
  representative_gen_yields_100_unit_samples (fun _ _ => 1/2)
    (fun _ _ => by norm_num)

/-- Observable trace of one run of `test_tflite_model` (lines 154-181): which
inputs were sent to the interpreter, the raw output tensor value, the printed
APPROVE/DENY decision, and the returned value. -/
structure ValidationTrace where
  invocations : List (List ℚ)
  output : ℚ
  decision : Bool
  result : Bool
deriving DecidableEq, Repr

/-- Embedding of `test_tflite_model`: the external TFLite interpreter is the
black-box `infer`; the function takes the first test sample `X_test[0:1]`,
runs a single inference on it, prints the decision `output_data > 0.6`
(APPROVE vs DENY), and returns `True` unconditionally — the body contains no
assertion on the output. -/
def test_tflite_model (infer : List ℚ → ℚ) (X_test : List (List ℚ)) :
    ValidationTrace :=
  let test_sample := X_test.headI
  let output_data := infer test_sample
  { invocations := [test_sample]
    output := output_data
    decision := if output_data > 0.6 then true else false
    result := true }

/-- C6 counterexample: with an artifact whose output on the first test sample
is 2 — outside [0, 1] — the validator still returns true and reports no
failure, so it does not assert that the output is a probability in [0, 1]. -/
theorem validator_accepts_out_of_range_output_cex :
    (test_tflite_model (fun _ => 2) [[1/2, 1/2, 1/2]]).result = true ∧
    ¬ ((test_tflite_model (fun _ => 2) [[1/2, 1/2, 1/2]]).output ≤ 1) := by
  constructor
  · rfl
  · simp only [test_tflite_model]
    norm_num

/-- C6 amended: the validator performs exactly one forward inference through
the artifact, on the single first test vector; it derives the printed decision
from the 0.6 threshold and returns true unconditionally, whatever the output
value is — it never checks the output against [0, 1]. -/
theorem validator_single_inference_always_true
    (infer : List ℚ → ℚ) (X_test : List (List ℚ)) :
    (test_tflite_model infer X_test).invocations = [X_test.headI] ∧
    (test_tflite_model infer X_test).invocations.length = 1 ∧
    (test_tflite_model infer X_test).output = infer X_test.headI ∧
    (test_tflite_model infer X_test).decision
      = (if infer X_test.headI > 0.6 then true else false) ∧
    (test_tflite_model infer X_test).result = true :=
  ⟨rfl, rfl, rfl, rfl, rfl⟩

/-- Hyperparameters hard-coded by `train_model` when compiling and fitting
(lines 89-106): Adam step size, loss, epochs, batch size, validation split. -/
structure FitConfig where
  learning_rate : ℚ
  loss : String
  epochs : Nat
  batch_size : Nat
  validation_split : ℚ
deriving DecidableEq, Repr

/-- The configuration literals embedded in `train_model`. -/
def trainConfig : FitConfig :=
  { learning_rate := 0.001
    loss := "binary_crossentropy"
    epochs := 50
    batch_size := 32
    validation_split := 0.2 }

/-- Embedding of `train_model` (lines 76-116): gradient descent itself is the
external engine's `fit`, a black box receiving the hard-coded configuration,
the model and the training data. `train_model` forwards `X_train`/`y_train`
unchanged — the body performs no emptiness or domain validation of its own —
and returns whatever the engine returns. -/
def train_model {M H : Type}
    (fit : FitConfig → M → List Sample → List ℚ → Except String (M × H))
    (model : M) (X_train : List Sample) (y_train : List ℚ) :
    Except String (M × H) :=
  fit trainConfig model X_train y_train

/-- C7 counterexample: with an engine whose fit succeeds, `train_model`
succeeds on a dataset whose only feature row is (5, 0, 0) — income feature 5
outside [0, 1] — with label 3 outside \x7b0, 1\x7d, and it also succeeds on the
empty dataset: the training operation rejects none of the claimed invalid
inputs. -/
theorem trainer_no_domain_validation_cex :
    (train_model (fun _ m _ _ => Except.ok (m, ())) () [⟨5, 0, 0⟩] [3]).isOk = true ∧
    (train_model (fun _ m _ _ => Except.ok (m, ())) () [] []).isOk = true :=
  ⟨rfl, rfl⟩

/-- C7 amended: the training operation performs no input validation at all; it
hands the dataset unchanged to the external engine's fit under the hard-coded
configuration (50 epochs, batch size 32, validation split 0.2, Adam step
0.001, binary cross-entropy), and its outcome is exactly the engine's outcome,
whatever the dataset contains. -/
theorem trainer_delegates_without_validation {M H : Type}
    (fit : FitConfig → M → List Sample → List ℚ → Except String (M × H))
    (model : M) (X_train : List Sample) (y_train : List ℚ) :
    train_model fit model X_train y_train = fit trainConfig model X_train y_train ∧
    trainConfig.epochs = 50 ∧ trainConfig.batch_size = 32 ∧
    trainConfig.validation_split = 0.2 ∧ trainConfig.learning_rate = 0.001 ∧
    trainConfig.loss = "binary_crossentropy" :=
  ⟨rfl, rfl, rfl, rfl, rfl, rfl⟩

/-- The metadata record assembled by `save_model_for_android` (lines 200-209). -/
structure Metadata where
  model_name : String
  model_version : String
  input_shape : List Nat
  input_names : List String
  output_shape : List Nat
  output_name : String
  decision_threshold : ℚ
  model_size_kb : ℚ
deriving DecidableEq, Repr

/-- The metadata values filled in for a given artifact byte string
(`model_size_kb` is the Python float division `len(tflite_model) / 1024`). -/
def modelMetadata (tflite_model : List Nat) : Metadata :=
  { model_name := "FinRisk Credit Classifier"
    model_version := "1.0.0"
    input_shape := [1, 3]
    input_names := ["income_normalized", "age_normalized", "app_engagement"]
    output_shape := [1, 1]
    output_name := "approval_probability"
    decision_threshold := 0.6
    model_size_kb := (tflite_model.length : ℚ) / 1024 }

/-- Content of a file in the modelled file system: raw artifact bytes
(`open(..., "wb")` + `f.write`) or the serialized metadata record
(`json.dump`). -/
inductive FileData where
  | bytes (b : List Nat)
  | json (m : Metadata)
deriving DecidableEq, Repr

/-- A file system state: the set of existing directories and a map from path
to file content. -/
structure FileSystem where
  dirs : List String
  files : String → Option FileData

/-- Embedding of `os.makedirs(output_dir, exist_ok=True)`: creates the
directory when absent and leaves the state unchanged when it already
exists. -/
def makedirs (fs : FileSystem) (dir : String) : FileSystem :=
  if dir ∈ fs.dirs then fs else { fs with dirs := dir :: fs.dirs }

/-- Embedding of opening a path for writing and writing `data` to it: the
previous content of the path, if any, is replaced. -/
def writeData (fs : FileSystem) (path : String) (data : FileData) : FileSystem :=
  { fs with files := fun q => if q = path then some data else fs.files q }

/-- Content visible at a path of the modelled file system. -/
def readData (fs : FileSystem) (path : String) : Option FileData :=
  fs.files path

/-- Embedding of `os.path.join` for the one-directory-plus-filename calls the
persister makes. -/
def pathJoin (dir name : String) : String := dir ++ "/" ++ name

/-- Fixed artifact filename (line 193). -/
def model_filename : String := "finrisk_classifier.tflite"

/-- Fixed metadata filename (line 212). -/
def metadata_filename : String := "model_metadata.json"

/-- Default `output_dir` of `save_model_for_android` (line 183), the value
`main` uses. -/
def defaultOutputDir : String := "models"

/-- Embedding of `save_model_for_android` (lines 183-222): ensures the output
directory exists, writes the artifact bytes to the fixed artifact filename,
then writes the metadata record to the fixed metadata filename, and returns
the resulting state together with the pair of paths. -/
def save_model_for_android (fs : FileSystem) (tflite_model : List Nat)
    (output_dir : String) : FileSystem × String × String :=
  let fs1 := makedirs fs output_dir
  let model_path := pathJoin output_dir model_filename
  let fs2 := writeData fs1 model_path (FileData.bytes tflite_model)
  let metadata_path := pathJoin output_dir metadata_filename
  let fs3 := writeData fs2 metadata_path
    (FileData.json (modelMetadata tflite_model))
  (fs3, model_path, metadata_path)

/-- A single file-system operation performed by the persister. -/
inductive FsOp where
  | mkdirs (dir : String)
  | write (path : String) (data : FileData)

/-- Effect of one operation on the file system. -/
def applyOp (fs : FileSystem) : FsOp → FileSystem
  | FsOp.mkdirs d => makedirs fs d
  | FsOp.write p data => writeData fs p data

/-- Effect of a sequence of operations, applied left to right. -/
def applyOps (fs : FileSystem) (ops : List FsOp) : FileSystem :=
  ops.foldl applyOp fs

/-- The ordered operation trace of `save_model_for_android`: directory
creation, then the artifact write, then the metadata write. -/
def save_ops (tflite_model : List Nat) (output_dir : String) : List FsOp :=
  [FsOp.mkdirs output_dir,
   FsOp.write (pathJoin output_dir model_filename) (FileData.bytes tflite_model),
   FsOp.write (pathJoin output_dir metadata_filename)
     (FileData.json (modelMetadata tflite_model))]

/-- Reading back the path just written returns the data just written. -/
theorem readData_writeData_same (fs : FileSystem) (p : String) (d : FileData) :
    readData (writeData fs p d) p = some d := by
  simp [readData, writeData]

/-- Writing one path leaves the content of any other path unchanged. -/
theorem readData_writeData_ne (fs : FileSystem) (p q : String) (d : FileData)
    (hpq : p ≠ q) : readData (writeData fs q d) p = readData fs p := by
  simp [readData, writeData, hpq]

/-- Directory creation does not touch file contents. -/
theorem readData_makedirs (fs : FileSystem) (dir p : String) :
    readData (makedirs fs dir) p = readData fs p := by
  unfold readData makedirs
  split <;> rfl

/-- Joining the same directory with filenames of different lengths yields
different paths. -/
theorem pathJoin_ne_of_length_ne (d a b : String) (h : a.length ≠ b.length) :
    pathJoin d a ≠ pathJoin d b := by
  intro he
  apply h
  have h1 := congrArg String.length he
  simp only [pathJoin, String.length_append] at h1
  omega

/-- The artifact path and the metadata path under one directory differ. -/
theorem model_path_ne_metadata_path (output_dir : String) :
    pathJoin output_dir model_filename ≠ pathJoin output_dir metadata_filename :=
  pathJoin_ne_of_length_ne output_dir model_filename metadata_filename (by decide)

/-- The directory just ensured is present afterwards. -/
theorem mem_dirs_makedirs (fs : FileSystem) (d : String) :
    d ∈ (makedirs fs d).dirs := by
  unfold makedirs
  split
  · assumption
  · exact List.mem_cons_self _ _

/-- Ensuring a directory twice equals ensuring it once: `exist_ok=True`
creation is idempotent. -/
theorem makedirs_idempotent (fs : FileSystem) (d : String) :
    makedirs (makedirs fs d) d = makedirs fs d := by
  by_cases h : d ∈ fs.dirs <;> simp [makedirs, h]

/-- C8: for every artifact byte string, prior file-system state and output
directory, the save operation ensures the output directory exists (and doing
so is idempotent when it already exists), writes the artifact's raw bytes to
the fixed artifact filename under that directory, writes the metadata record
to the sibling fixed metadata filename, and returns the pair
`(artifact_path, metadata_path)`. -/
theorem save_creates_dir_writes_files_returns_paths
    (fs : FileSystem) (tflite_model : List Nat) (output_dir : String) :
    (save_model_for_android fs tflite_model output_dir).2
      = (pathJoin output_dir model_filename,
         pathJoin output_dir metadata_filename) ∧
    output_dir ∈ (save_model_for_android fs tflite_model output_dir).1.dirs ∧
    readData (save_model_for_android fs tflite_model output_dir).1
        (pathJoin output_dir model_filename)
      = some (FileData.bytes tflite_model) ∧
    readData (save_model_for_android fs tflite_model output_dir).1
        (pathJoin output_dir metadata_filename)
      = some (FileData.json (modelMetadata tflite_model)) ∧
    makedirs (makedirs fs output_dir) output_dir = makedirs fs output_dir ∧
    output_dir ∈ (makedirs fs output_dir).dirs := by
  have h1 : (save_model_for_android fs tflite_model output_dir).1
      = writeData
          (writeData (makedirs fs output_dir)
            (pathJoin output_dir model_filename) (FileData.bytes tflite_model))
          (pathJoin output_dir metadata_filename)
          (FileData.json (modelMetadata tflite_model)) := rfl
  refine ⟨rfl, ?_, ?_, ?_, makedirs_idempotent fs output_dir,
    mem_dirs_makedirs fs output_dir⟩
  · rw [h1]
    exact mem_dirs_makedirs fs output_dir
  · rw [h1, readData_writeData_ne _ _ _ _ (model_path_ne_metadata_path output_dir),
      readData_writeData_same]
  · rw [h1, readData_writeData_same]

/-- C9: the persisted metadata record carries exactly the declared values:
input shape `[1, 3]`, the three input feature names in positional order,
output shape `[1, 1]`, decision threshold `0.6`, size in kilobytes equal to
the artifact byte length divided by 1024, plus model name, version and output
name. -/
theorem metadata_schema_values (tflite_model : List Nat) :
    (modelMetadata tflite_model).input_shape = [1, 3] ∧
    (modelMetadata tflite_model).input_names
      = ["income_normalized", "age_normalized", "app_engagement"] ∧
    (modelMetadata tflite_model).output_shape = [1, 1] ∧
    (modelMetadata tflite_model).decision_threshold = 0.6 ∧
    (modelMetadata tflite_model).model_size_kb
      = (tflite_model.length : ℚ) / 1024 ∧
    (modelMetadata tflite_model).model_name = "FinRisk Credit Classifier" ∧
    (modelMetadata tflite_model).model_version = "1.0.0" ∧
    (modelMetadata tflite_model).output_name = "approval_probability" :=
  ⟨rfl, rfl, rfl, rfl, rfl, rfl, rfl, rfl⟩

/-- C10: the save operation's trace writes the artifact bytes to
`finrisk_classifier.tflite` strictly before the metadata to
`model_metadata.json`, under the default output directory `models`; after the
first two operations only — the state in which a failing metadata write would
leave the disk — the artifact file already holds the new bytes while the
metadata path still holds whatever it held before, so the pair is not written
atomically. -/
theorem artifact_written_before_metadata (fs : FileSystem)
    (tflite_model : List Nat) :
    defaultOutputDir = "models" ∧
    model_filename = "finrisk_classifier.tflite" ∧
    metadata_filename = "model_metadata.json" ∧
    save_ops tflite_model defaultOutputDir
      = [FsOp.mkdirs defaultOutputDir,
         FsOp.write (pathJoin defaultOutputDir model_filename)
           (FileData.bytes tflite_model),
         FsOp.write (pathJoin defaultOutputDir metadata_filename)
           (FileData.json (modelMetadata tflite_model))] ∧
    applyOps fs (save_ops tflite_model defaultOutputDir)
      = (save_model_for_android fs tflite_model defaultOutputDir).1 ∧
    readData (applyOps fs ((save_ops tflite_model defaultOutputDir).take 2))
        (pathJoin defaultOutputDir model_filename)
      = some (FileData.bytes tflite_model) ∧
    readData (applyOps fs ((save_ops tflite_model defaultOutputDir).take 2))
        (pathJoin defaultOutputDir metadata_filename)
      = readData fs (pathJoin defaultOutputDir metadata_filename) := by
  have h2 : applyOps fs ((save_ops tflite_model defaultOutputDir).take 2)
      = writeData (makedirs fs defaultOutputDir)
          (pathJoin defaultOutputDir model_filename)
          (FileData.bytes tflite_model) := rfl
  refine ⟨rfl, rfl, rfl, rfl, rfl, ?_, ?_⟩
  · rw [h2, readData_writeData_same]
  · rw [h2,
      readData_writeData_ne _ _ _ _
        (Ne.symm (model_path_ne_metadata_path defaultOutputDir)),
      readData_makedirs]
